import Mathlib

/-!
Shallow embedding of the vMix controller core (desktop `main.py` and mobile
`mobile/main.py`): the XML snapshot decoder, the poll-tick state
synchronization, and the command dispatcher operations, together with
theorems settling the specification claims.
-/

/-- Minimal model of an `xml.etree.ElementTree` element: tag, attribute
list, text content, and child elements in document order. -/
inductive XElem where
  | node (tag : String) (attrs : List (String × String)) (text : Option String)
      (children : List XElem)

/-- Tag name of an element. -/
def XElem.tag : XElem → String
  | .node t _ _ _ => t

/-- Attribute list of an element. -/
def XElem.attrList : XElem → List (String × String)
  | .node _ a _ _ => a

/-- Text content of an element (`None` when the element has no text). -/
def XElem.text : XElem → Option String
  | .node _ _ t _ => t

/-- Child elements in document order. -/
def XElem.children : XElem → List XElem
  | .node _ _ _ c => c

/-- Model of `Element.get(name)`: the value of the named attribute, or
`None` when absent. -/
def XElem.attr (e : XElem) (name : String) : Option String :=
  (e.attrList.find? (fun p => p.1 = name)).map Prod.snd

/-- Model of `Element.find(tag)` for a plain tag: the first direct child
with that tag, or `None`. -/
def XElem.findChild (e : XElem) (name : String) : Option XElem :=
  e.children.find? (fun c => c.tag = name)

/-- Model of `root.findall` on the path `inputs/input`: for each direct `inputs`
child in document order, its direct `input` children in document order. -/
def inputElems (root : XElem) : List XElem :=
  (root.children.filter (fun c => c.tag = "inputs")).flatMap
    (fun e => e.children.filter (fun c => c.tag = "input"))

/-- Outcome of one `vMixAPI.get_xml_data` call followed by the XML parse
attempted by its caller: `fail` is a transport error or non-200 status
(`get_xml_data` returns `None`), `emptyBody` is a 200 response with an
empty body (falsy string, rejected by the `if not xml_data` guards),
`malformed` is a non-empty body on which `ET.fromstring` raises, and
`ok root` is a successfully parsed snapshot. -/
inductive Fetch where
  | fail
  | emptyBody
  | malformed
  | ok (root : XElem)

/-- Truthiness of the raw `get_xml_data` result as tested by
`connect_to_vmix` via `if xml_data:` — any non-empty body is truthy,
whether or not it parses. -/
def fetchTruthy : Fetch → Bool
  | .fail => false
  | .emptyBody => false
  | .malformed => true
  | .ok _ => true

/-- Python f-string rendering of an optional attribute value: `None`
renders as the literal string. -/
def pyOptStr : Option String → String
  | some s => s
  | none => "None"

/-- One decoded input record as built by the desktop `vMixAPI.get_inputs`
from a single `input` element, with the documented attribute defaults. -/
structure InputData where
  number : Option String
  title : String
  type : String
  state : String
  duration : String
  position : String
  short_title : String
  key : String
deriving DecidableEq

/-- Decoding of a single `input` element by the desktop client. -/
def decodeInput (e : XElem) : InputData :=
  { number := e.attr "number"
  , title := (e.attr "title").getD ("Input " ++ pyOptStr (e.attr "number"))
  , type := (e.attr "type").getD "Unknown"
  , state := (e.attr "state").getD ""
  , duration := (e.attr "duration").getD "0"
  , position := (e.attr "position").getD "0"
  , short_title := (e.attr "shortTitle").getD ""
  , key := (e.attr "key").getD "" }

/-- Desktop `vMixAPI.get_inputs`: empty list on any transport or parse
failure, otherwise the decoded `inputs/input` elements in document
order. -/
def get_inputs : Fetch → List InputData
  | .fail => []
  | .emptyBody => []
  | .malformed => []
  | .ok root => (inputElems root).map decodeInput

/-- One decoded input record as built by the mobile `vMixAPI.get_inputs`
(only `number`, `title` and `shortTitle` are extracted). -/
structure MobileInput where
  number : Option String
  title : String
  short_title : String
deriving DecidableEq

/-- Decoding of a single `input` element by the mobile client. -/
def mobileDecodeInput (e : XElem) : MobileInput :=
  { number := e.attr "number"
  , title := (e.attr "title").getD ("Input " ++ pyOptStr (e.attr "number"))
  , short_title := (e.attr "shortTitle").getD "" }

/-- Mobile `vMixAPI.get_inputs`. -/
def mobile_get_inputs : Fetch → List MobileInput
  | .fail => []
  | .emptyBody => []
  | .malformed => []
  | .ok root => (inputElems root).map mobileDecodeInput

/-- The `vMixAPI.get_active_input` of both clients: `None` on any failure,
otherwise the text of the first top-level `active` element (`None` when
the element is absent or has no text). -/
def get_active_input : Fetch → Option String
  | .fail => none
  | .emptyBody => none
  | .malformed => none
  | .ok root => (root.findChild "active").bind XElem.text

/-- The `vMixAPI.get_preview_input` of both clients, symmetric to
`get_active_input` over the `preview` element. -/
def get_preview_input : Fetch → Option String
  | .fail => none
  | .emptyBody => none
  | .malformed => none
  | .ok root => (root.findChild "preview").bind XElem.text

/-- One command request as built by `vMixAPI.send_command`: the function
name and its query parameters in iteration order. -/
structure Cmd where
  name : String
  params : List (String × String)
deriving DecidableEq

/-- Local per-layer overlay flags of the desktop controller
(`self.active_overlays`, keys 1..4, all seeded `False`). -/
structure Overlays where
  o1 : Bool
  o2 : Bool
  o3 : Bool
  o4 : Bool
deriving DecidableEq

/-- State of the desktop controller relevant to the claims: whether
`self.vmix_api` is set, the decoded inputs backing the tiles, the stored
active and preview input numbers, the fade-to-black flag and the overlay
flags. -/
structure CState where
  connected : Bool
  inputs : List InputData
  active_input : Option String
  preview_input : Option String
  ftb_active : Bool
  overlays : Overlays
deriving DecidableEq

/-- The desktop controller state as seeded by `VMixController.__init__`
(before any user settings are applied). -/
def initCState : CState :=
  { connected := false
  , inputs := []
  , active_input := none
  , preview_input := none
  , ftb_active := false
  , overlays := ⟨false, false, false, false⟩ }

/-- State of the mobile controller relevant to the claims (the mobile
client tracks no overlay flags). -/
structure MState where
  connected : Bool
  inputs : List MobileInput
  active_input : Option String
  preview_input : Option String
  ftb_active : Bool
deriving DecidableEq

/-- One emitted state-change notification: the UI refresh performed by a
poll tick, carrying the values the tick stored. -/
structure StateEvent where
  active : Option String
  preview : Option String
deriving DecidableEq

/-- Desktop `VMixController.update_states`, one poll tick: when connected,
fetch the active input and the preview input (one `get_xml_data` each);
when either decoded value differs from the stored one, store both new
values and refresh the UI once; otherwise do nothing. The internal
`except` clause is dead in this model because `get_active_input` and
`get_preview_input` swallow their own errors and return `None`. -/
def update_states (s : CState) (f1 f2 : Fetch) : CState × List StateEvent :=
  if s.connected then
    let newA := get_active_input f1
    let newP := get_preview_input f2
    if newA ≠ s.active_input ∨ newP ≠ s.preview_input then
      ({ s with active_input := newA, preview_input := newP }, [⟨newA, newP⟩])
    else (s, [])
  else (s, [])

/-- Desktop `VMixController.load_inputs`: when connected, clear the tiles,
fetch and decode the input list (one `get_xml_data`); when it is empty,
return with the tiles cleared; otherwise fetch the active input and the
preview input with two further independent `get_xml_data` calls and store
all three. -/
def load_inputs (f1 f2 f3 : Fetch) (s : CState) : CState :=
  if s.connected then
    let cleared := { s with inputs := [] }
    let ins := get_inputs f1
    if ins.isEmpty then cleared
    else { cleared with
           inputs := ins
         , active_input := get_active_input f2
         , preview_input := get_preview_input f3 }
  else s

/-- Mobile `VMixControllerMobile.load_inputs`: when connected, fetch the
input list, the active input and the preview input with three independent
`get_xml_data` calls and store all three unconditionally. -/
def mobile_load_inputs (f1 f2 f3 : Fetch) (s : MState) : MState :=
  if s.connected then
    { s with
      inputs := mobile_get_inputs f1
    , active_input := get_active_input f2
    , preview_input := get_preview_input f3 }
  else s

/-- Mobile `VMixControllerMobile.update_states`, one poll tick: like the
desktop tick, but a detected change refreshes the UI by re-running
`load_inputs`, which performs three further fetches. The second component
counts the UI refreshes emitted by the tick. -/
def mobile_update_states (s : MState) (f1 f2 f3 f4 f5 : Fetch) : MState × Nat :=
  if s.connected then
    let newA := get_active_input f1
    let newP := get_preview_input f2
    if newA ≠ s.active_input ∨ newP ≠ s.preview_input then
      (mobile_load_inputs f3 f4 f5
        { s with active_input := newA, preview_input := newP }, 1)
    else (s, 0)
  else (s, 0)

/-- Python truthiness of the stored preview input as tested by
`if not self.preview_input`: `None` and the empty string are falsy. -/
def falsyOpt : Option String → Bool
  | none => true
  | some s => s = ""

/-- Result of one dispatcher call as surfaced to the status bar. -/
inductive DispatchReport where
  | preconditionFailed
  | success
  | failure
deriving DecidableEq

/-- Desktop `VMixController.quick_play`: requires a connection and a truthy
preview input, otherwise reports a precondition failure without sending
anything. Sends `Fade` with the preview input; on success stores it as the
active input; on failure falls back once to `Cut` with the same input; when
both fail the state is unchanged and a failure is reported. The third
component records the commands sent, in order. -/
def quick_play (send : Cmd → Bool) (s : CState) :
    CState × DispatchReport × List Cmd :=
  if !s.connected || falsyOpt s.preview_input then (s, .preconditionFailed, [])
  else
    let p := s.preview_input.getD ""
    let fadeCmd : Cmd := ⟨"Fade", [("Input", p)]⟩
    if send fadeCmd then
      ({ s with active_input := some p }, .success, [fadeCmd])
    else
      let cutCmd : Cmd := ⟨"Cut", [("Input", p)]⟩
      if send cutCmd then
        ({ s with active_input := some p }, .success, [fadeCmd, cutCmd])
      else (s, .failure, [fadeCmd, cutCmd])

/-- Mobile `VMixControllerMobile.quick_play`: same precondition, but it
sends only `Fade`, ignores the result, stores the preview input as active,
re-runs `load_inputs` (three further fetches) and reports success
unconditionally. -/
def mobile_quick_play (send : Cmd → Bool) (f1 f2 f3 : Fetch) (s : MState) :
    MState × DispatchReport × List Cmd :=
  if !s.connected || falsyOpt s.preview_input then (s, .preconditionFailed, [])
  else
    let p := s.preview_input.getD ""
    let fadeCmd : Cmd := ⟨"Fade", [("Input", p)]⟩
    let _sent := send fadeCmd
    let s1 := { s with active_input := s.preview_input }
    (mobile_load_inputs f1 f2 f3 s1, .success, [fadeCmd])

/-- Status-bar outcome of one desktop `fade_to_black` call. `silent` is
the branch that changes no status message at all: turning the effect off
with a failing command. -/
inductive FtbReport where
  | notConnected
  | enabled
  | disabled
  | errorReported
  | silent
deriving DecidableEq

/-- Desktop `VMixController.fade_to_black`: flips `self.ftb_active`, then
sends `FadeToBlack`. When the flip turned the effect on and the command
fails, the flip is reverted and an error is reported. When the flip turned
the effect off and the command fails, nothing happens: the flag stays
false and no error is reported. -/
def fade_to_black (send : Cmd → Bool) (s : CState) : CState × FtbReport :=
  if !s.connected then (s, .notConnected)
  else
    let flipped := !s.ftb_active
    if flipped then
      if send ⟨"FadeToBlack", []⟩ then
        ({ s with ftb_active := true }, .enabled)
      else ({ s with ftb_active := false }, .errorReported)
    else
      if send ⟨"FadeToBlack", []⟩ then
        ({ s with ftb_active := false }, .disabled)
      else ({ s with ftb_active := false }, .silent)

/-- The `OverlayInput{layer}Out` command sent by `remove_overlay` for one
layer. -/
def overlayOutCmd (layer : Nat) : Cmd :=
  ⟨"OverlayInput" ++ toString layer ++ "Out", []⟩

/-- Clearing of one key of the desktop `self.active_overlays` dict. -/
def clearOverlay (o : Overlays) : Nat → Overlays
  | 1 => { o with o1 := false }
  | 2 => { o with o2 := false }
  | 3 => { o with o3 := false }
  | 4 => { o with o4 := false }
  | _ => o

/-- Status-bar outcome of one desktop `remove_overlay` call. -/
inductive RemoveReport where
  | notConnected
  | success
deriving DecidableEq

/-- Desktop `VMixController.remove_overlay`: for each layer 1..4 in order,
send `OverlayInput{layer}Out` and clear the local flag for that layer; the
boolean result of each send is recorded but never consulted, so no layer
aborts the following ones. `send_command` swallows every exception and
returns a boolean, so the surrounding `except` clause is dead and the call
always reports success when connected. The third component records each
command sent together with its transport result. -/
def remove_overlay (send : Cmd → Bool) (s : CState) :
    CState × RemoveReport × List (Cmd × Bool) :=
  if !s.connected then (s, .notConnected, [])
  else
    let step := fun (acc : Overlays × List (Cmd × Bool)) (layer : Nat) =>
      (clearOverlay acc.1 layer,
       acc.2 ++ [(overlayOutCmd layer, send (overlayOutCmd layer))])
    let res := [1, 2, 3, 4].foldl step (s.overlays, [])
    ({ s with overlays := res.1 }, .success, res.2)

/-- Status-bar outcome of one desktop `connect_to_vmix` call: the empty-ip
message, the connected message, or the single generic failure message. -/
inductive ConnectReport where
  | emptyIp
  | connectedOk
  | failed
deriving DecidableEq

/-- Desktop `VMixController.connect_to_vmix`: an empty ip field is rejected
before any network call; otherwise one `get_xml_data` is attempted and its
truthiness alone decides the outcome. On success the controller becomes
connected and `load_inputs` runs (three further fetches); the overlay and
fade-to-black flags are not touched. On failure `self.vmix_api` is reset
and one generic failure message is shown. -/
def connect_to_vmix (ip _port : String) (f0 f1 f2 f3 : Fetch) (s : CState) :
    CState × ConnectReport :=
  if ip = "" then (s, .emptyIp)
  else if fetchTruthy f0 then
    (load_inputs f1 f2 f3 { s with connected := true }, .connectedOk)
  else ({ s with connected := false }, .failed)

/-- Cause of one snapshot-fetch outcome at the transport level, before
`get_xml_data` collapses it: `noResponse` is a timeout, `badAddress` is a
connection error against an unreachable address, `httpNon200` is a
response with a non-200 status. -/
inductive SnapCause where
  | responded (root : XElem)
  | noResponse
  | badAddress
  | httpNon200
deriving Inhabited

/-- What `get_xml_data` hands its caller for each transport cause: every
failure cause collapses to the same `None` result. -/
def fetchOfCause : SnapCause → Fetch
  | .responded root => .ok root
  | .noResponse => .fail
  | .badAddress => .fail
  | .httpNon200 => .fail

/-- Desktop `Settings` fields. The two float-valued preferences are
modelled as rationals; `save` only copies them. -/
structure Settings where
  ip : String
  port : String
  login : String
  password : String
  remember_creds : Bool
  show_settings : Bool
  ui_scale : Rat
  fullscreen : Bool
  version : Rat
  scale_slider_step : Nat
deriving DecidableEq

/-- The dictionary written to `vmix_settings.json` by `Settings.save`. -/
structure PersistedSettings where
  ip : String
  port : String
  login : String
  password : String
  remember_creds : Bool
  show_settings : Bool
  ui_scale : Rat
  fullscreen : Bool
  version : Rat
  scale_slider_step : Nat
deriving DecidableEq

/-- Desktop `Settings.save`: the persisted dictionary, with the login and
password replaced by empty strings unless `remember_creds` is set. -/
def Settings.save (s : Settings) : PersistedSettings :=
  { ip := s.ip
  , port := s.port
  , login := if s.remember_creds then s.login else ""
  , password := if s.remember_creds then s.password else ""
  , remember_creds := s.remember_creds
  , show_settings := s.show_settings
  , ui_scale := s.ui_scale
  , fullscreen := s.fullscreen
  , version := s.version
  , scale_slider_step := s.scale_slider_step }

/-! Concrete fixtures used by witnesses and counterexamples. -/

/-- Snapshot A: one input numbered 1, active 1, preview 1. -/
def snapA : XElem :=
  .node "vmix" [] none
    [ .node "inputs" [] none [.node "input" [("number", "1"), ("title", "Cam 1")] none []]
    , .node "active" [] (some "1") []
    , .node "preview" [] (some "1") [] ]

/-- Snapshot B: one input numbered 2, active 2, preview 2. -/
def snapB : XElem :=
  .node "vmix" [] none
    [ .node "inputs" [] none [.node "input" [("number", "2")] none []]
    , .node "active" [] (some "2") []
    , .node "preview" [] (some "2") [] ]

/-- An input element carrying only its number, all optional attributes
absent. -/
def inBare5 : XElem := .node "input" [("number", "5")] none []

/-- Snapshot with one bare input and no active or preview element. -/
def snapBare : XElem :=
  .node "vmix" [] none [.node "inputs" [] none [inBare5]]

/-- A transport that fails every command. -/
def sendNever : Cmd → Bool := fun _ => false

/-- A transport that accepts every command. -/
def sendAlways : Cmd → Bool := fun _ => true

/-- A transport that fails exactly the layer-3 overlay-out command. -/
def sendFail3 : Cmd → Bool := fun c => c.name != "OverlayInput3Out"

/-- C10: for every `Settings.save` with `remember_creds` false, the
persisted login and password are empty strings, and the persisted file
content is independent of the in-memory credential values. -/
theorem settings_save_no_creds (s : Settings) (l p : String)
    (h : s.remember_creds = false) :
    (Settings.save s).login = "" ∧ (Settings.save s).password = "" ∧
    Settings.save { s with login := l, password := p } = Settings.save s := by
  simp [Settings.save, h]

/-- Concrete settings record with credentials in memory and
`remember_creds` off. -/
def exSettings : Settings :=
  { ip := "127.0.0.1"
  , port := "8088"
  , login := "admin"
  , password := "hunter2"
  , remember_creds := false
  , show_settings := true
  , ui_scale := 1
  , fullscreen := false
  , version := 1
  , scale_slider_step := 5 }

/-- Witness for `settings_save_no_creds` at a concrete settings record. -/
theorem settings_save_no_creds_witness :
    exSettings.remember_creds = false ∧
    (Settings.save exSettings).login = "" ∧
    (Settings.save exSettings).password = "" ∧
    Settings.save { exSettings with login := "other", password := "values" } =
      Settings.save exSettings :=
  ⟨rfl, settings_save_no_creds exSettings "other" "values" rfl⟩

/-- C8: decoding a snapshot yields one record per `inputs/input` element,
in document order, for both the desktop and the mobile decoder; an element
missing `title` gets the literal default built from its number, a missing
`type` defaults to `Unknown`, and missing `duration` and `position`
default to `0`. -/
theorem get_inputs_decode_spec (root : XElem) (i : Nat) (e : XElem)
    (h : (inputElems root)[i]? = some e) :
    (get_inputs (Fetch.ok root)).length = (inputElems root).length ∧
    (mobile_get_inputs (Fetch.ok root)).length = (inputElems root).length ∧
    (get_inputs (Fetch.ok root))[i]? = some (decodeInput e) ∧
    (mobile_get_inputs (Fetch.ok root))[i]? = some (mobileDecodeInput e) ∧
    (e.attr "title" = none →
      (decodeInput e).title = "Input " ++ pyOptStr (e.attr "number")) ∧
    (e.attr "type" = none → (decodeInput e).type = "Unknown") ∧
    (e.attr "duration" = none → (decodeInput e).duration = "0") ∧
    (e.attr "position" = none → (decodeInput e).position = "0") := by
  refine ⟨?_, ?_, ?_, ?_, ?_, ?_, ?_, ?_⟩
  · simp [get_inputs]
  · simp [mobile_get_inputs]
  · simp [get_inputs, List.getElem?_map, h]
  · simp [mobile_get_inputs, List.getElem?_map, h]
  · intro ht; simp [decodeInput, ht]
  · intro ht; simp [decodeInput, ht]
  · intro ht; simp [decodeInput, ht]
  · intro ht; simp [decodeInput, ht]

/-- Witness for `get_inputs_decode_spec` on a snapshot whose single input
carries only its number. -/
theorem get_inputs_decode_spec_witness :
    (inputElems snapBare)[0]? = some inBare5 ∧
    ((get_inputs (Fetch.ok snapBare)).length = (inputElems snapBare).length ∧
     (mobile_get_inputs (Fetch.ok snapBare)).length = (inputElems snapBare).length ∧
     (get_inputs (Fetch.ok snapBare))[0]? = some (decodeInput inBare5) ∧
     (mobile_get_inputs (Fetch.ok snapBare))[0]? = some (mobileDecodeInput inBare5) ∧
     (inBare5.attr "title" = none →
       (decodeInput inBare5).title = "Input " ++ pyOptStr (inBare5.attr "number")) ∧
     (inBare5.attr "type" = none → (decodeInput inBare5).type = "Unknown") ∧
     (inBare5.attr "duration" = none → (decodeInput inBare5).duration = "0") ∧
     (inBare5.attr "position" = none → (decodeInput inBare5).position = "0")) :=
  ⟨rfl, get_inputs_decode_spec snapBare 0 inBare5 rfl⟩

/-- C9: when the top-level `active` element is present with text equal to
the number of some decoded input, the decoded active input number is that
same value; when the element is absent the result is `None`; and
symmetrically for `preview`. -/
theorem active_preview_round_trip (root : XElem) (ea ep : XElem)
    (va vp : String) :
    (root.findChild "active" = some ea → ea.text = some va →
      (∃ d ∈ inputElems root, d.attr "number" = some va) →
      get_active_input (Fetch.ok root) = some va) ∧
    (root.findChild "active" = none →
      get_active_input (Fetch.ok root) = none) ∧
    (root.findChild "preview" = some ep → ep.text = some vp →
      (∃ d ∈ inputElems root, d.attr "number" = some vp) →
      get_preview_input (Fetch.ok root) = some vp) ∧
    (root.findChild "preview" = none →
      get_preview_input (Fetch.ok root) = none) := by
  refine ⟨?_, ?_, ?_, ?_⟩
  · intro hf ht _; simp [get_active_input, hf, ht]
  · intro hf; simp [get_active_input, hf]
  · intro hf ht _; simp [get_preview_input, hf, ht]
  · intro hf; simp [get_preview_input, hf]

/-- The active element of snapshot A. -/
def activeElemA : XElem := .node "active" [] (some "1") []

/-- Witness for `active_preview_round_trip`: snapshot A has active and
preview text 1 matching its input number 1; the bare snapshot has neither
element. -/
theorem active_preview_round_trip_witness :
    get_active_input (Fetch.ok snapA) = some "1" ∧
    get_preview_input (Fetch.ok snapA) = some "1" ∧
    get_active_input (Fetch.ok snapBare) = none ∧
    get_preview_input (Fetch.ok snapBare) = none := by
  have hA := active_preview_round_trip snapA activeElemA
    (.node "preview" [] (some "1") []) "1" "1"
  have hB := active_preview_round_trip snapBare activeElemA activeElemA "1" "1"
  refine ⟨?_, ?_, ?_, ?_⟩
  · exact hA.1 rfl rfl ⟨.node "input" [("number", "1"), ("title", "Cam 1")] none [],
      by simp [inputElems, snapA, XElem.children, XElem.tag], by simp [XElem.attr, XElem.attrList]⟩
  · exact hA.2.2.1 rfl rfl ⟨.node "input" [("number", "1"), ("title", "Cam 1")] none [],
      by simp [inputElems, snapA, XElem.children, XElem.tag], by simp [XElem.attr, XElem.attrList]⟩
  · exact hB.2.1 rfl
  · exact hB.2.2.2 rfl

/-- A connected desktop state that has previously stored good active and
preview values. -/
def exPolled : CState :=
  { connected := true
  , inputs := []
  , active_input := some "1"
  , preview_input := some "2"
  , ftb_active := false
  , overlays := ⟨false, false, false, false⟩ }

/-- C1 counterexample: a poll tick whose two fetches fail does not leave
the stored values untouched — it replaces the previously known active and
preview input numbers with `None`, because `get_active_input` and
`get_preview_input` report failure as `None` and the diff then fires. -/
theorem update_states_failure_clears_counterexample :
    (update_states exPolled Fetch.fail Fetch.fail).1.active_input
        ≠ exPolled.active_input ∧
    (update_states exPolled Fetch.fail Fetch.fail).1.preview_input
        ≠ exPolled.preview_input ∧
    (update_states exPolled Fetch.fail Fetch.fail).1.active_input = none := by
  decide

/-- C1 (amended): a fetch or decode failure during a poll tick never
transitions the engine out of the connected state and never raises, but it
does not skip the tick: the failed fetch decodes to `None`, and when the
stored active or preview value is not already `None` the tick replaces
both stored values with `None`; the tick is a no-op only when the fetched
values equal the stored ones, in particular when both stored values are
already `None`. -/
theorem update_states_failure_spec (s : CState) (f1 f2 : Fetch)
    (h : s.connected = true) :
    (update_states s f1 f2).1.connected = true ∧
    (update_states s Fetch.fail Fetch.fail).1.active_input = none ∧
    (update_states s Fetch.fail Fetch.fail).1.preview_input = none ∧
    (s.active_input = none → s.preview_input = none →
      update_states s Fetch.fail Fetch.fail = (s, [])) := by
  refine ⟨?_, ?_, ?_, ?_⟩
  · simp only [update_states, h, if_true]
    split
    · rfl
    · exact h
  · simp only [update_states, h, if_true, get_active_input, get_preview_input]
    split
    · rfl
    · rename_i hcond
      push_neg at hcond
      exact hcond.1.symm
  · simp only [update_states, h, if_true, get_active_input, get_preview_input]
    split
    · rfl
    · rename_i hcond
      push_neg at hcond
      exact hcond.2.symm
  · intro ha hp
    simp [update_states, h, get_active_input, get_preview_input, ha, hp]

/-- Witness for `update_states_failure_spec` at a concrete connected
state. -/
theorem update_states_failure_spec_witness :
    exPolled.connected = true ∧
    ((update_states exPolled Fetch.fail Fetch.fail).1.connected = true ∧
     (update_states exPolled Fetch.fail Fetch.fail).1.active_input = none ∧
     (update_states exPolled Fetch.fail Fetch.fail).1.preview_input = none) :=
  ⟨rfl,
   (update_states_failure_spec exPolled Fetch.fail Fetch.fail rfl).1,
   (update_states_failure_spec exPolled Fetch.fail Fetch.fail rfl).2.1,
   (update_states_failure_spec exPolled Fetch.fail Fetch.fail rfl).2.2.1⟩

/-- C2: on a connected poll tick, when both newly fetched values equal the
stored ones the tick emits nothing and leaves the state as it was; when
either differs the tick replaces the stored values and emits exactly one
event carrying the new values. The mobile tick gates its single UI refresh
on the same diff. -/
theorem update_states_diff_spec (s : CState) (f1 f2 : Fetch) (m : MState)
    (g1 g2 g3 g4 g5 : Fetch) (h : s.connected = true)
    (hm : m.connected = true) :
    (get_active_input f1 = s.active_input →
     get_preview_input f2 = s.preview_input →
      update_states s f1 f2 = (s, [])) ∧
    (¬ (get_active_input f1 = s.active_input ∧
        get_preview_input f2 = s.preview_input) →
      update_states s f1 f2 =
        ({ s with active_input := get_active_input f1
                , preview_input := get_preview_input f2 },
         [⟨get_active_input f1, get_preview_input f2⟩])) ∧
    (get_active_input g1 = m.active_input →
     get_preview_input g2 = m.preview_input →
      mobile_update_states m g1 g2 g3 g4 g5 = (m, 0)) ∧
    (¬ (get_active_input g1 = m.active_input ∧
        get_preview_input g2 = m.preview_input) →
      (mobile_update_states m g1 g2 g3 g4 g5).2 = 1) := by
  refine ⟨?_, ?_, ?_, ?_⟩
  · intro ha hp
    simp [update_states, h, ha, hp]
  · intro hne
    rw [not_and_or] at hne
    simp only [update_states, h, if_true]
    rw [if_pos]
    rcases hne with hne | hne
    · exact Or.inl hne
    · exact Or.inr hne
  · intro ha hp
    simp [mobile_update_states, hm, ha, hp]
  · intro hne
    rw [not_and_or] at hne
    simp only [mobile_update_states, hm, if_true]
    rw [if_pos]
    rcases hne with hne | hne
    · exact Or.inl hne
    · exact Or.inr hne

/-- Snapshot with active 1 and preview 2, matching the stored values of
`exPolled`. -/
def snapSame : XElem :=
  .node "vmix" [] none
    [ .node "inputs" [] none []
    , .node "active" [] (some "1") []
    , .node "preview" [] (some "2") [] ]

/-- Snapshot with active 1 and preview 2 changed from 2 to, now, 3. -/
def snapMoved : XElem :=
  .node "vmix" [] none
    [ .node "inputs" [] none []
    , .node "active" [] (some "1") []
    , .node "preview" [] (some "3") [] ]

/-- A connected mobile state with stored active 1 and preview 2. -/
def exMPolled : MState :=
  { connected := true
  , inputs := []
  , active_input := some "1"
  , preview_input := some "2"
  , ftb_active := false }

/-- Witness for `update_states_diff_spec`: an identical snapshot emits
nothing, a snapshot whose preview moved emits exactly one event carrying
the new values. -/
theorem update_states_diff_spec_witness :
    update_states exPolled (Fetch.ok snapSame) (Fetch.ok snapSame) =
      (exPolled, []) ∧
    update_states exPolled (Fetch.ok snapMoved) (Fetch.ok snapMoved) =
      ({ exPolled with active_input := some "1", preview_input := some "3" },
       [⟨some "1", some "3"⟩]) ∧
    mobile_update_states exMPolled (Fetch.ok snapSame) (Fetch.ok snapSame)
      Fetch.fail Fetch.fail Fetch.fail = (exMPolled, 0) ∧
    (mobile_update_states exMPolled (Fetch.ok snapMoved) (Fetch.ok snapMoved)
      Fetch.fail Fetch.fail Fetch.fail).2 = 1 := by
  have h := update_states_diff_spec exPolled (Fetch.ok snapSame)
    (Fetch.ok snapSame) exMPolled (Fetch.ok snapSame) (Fetch.ok snapSame)
    Fetch.fail Fetch.fail Fetch.fail rfl rfl
  have h2 := update_states_diff_spec exPolled (Fetch.ok snapMoved)
    (Fetch.ok snapMoved) exMPolled (Fetch.ok snapMoved) (Fetch.ok snapMoved)
    Fetch.fail Fetch.fail Fetch.fail rfl rfl
  refine ⟨?_, ?_, ?_, ?_⟩
  · exact h.1 (by decide) (by decide)
  · have := h2.2.1 (by decide)
    simpa using this
  · exact h.2.2.1 (by decide) (by decide)
  · exact h2.2.2.2 (by decide)

/-- A connected mobile state with preview input 3 selected. -/
def exM3 : MState :=
  { connected := true
  , inputs := []
  , active_input := some "1"
  , preview_input := some "3"
  , ftb_active := false }

/-- C3 counterexample: against a transport that fails every command, the
mobile `quick_play` sends only `Fade` — no `Cut` fallback is ever
attempted — and still reports success, although the one command it sent
failed. -/
theorem mobile_quick_play_no_fallback_counterexample :
    (mobile_quick_play sendNever Fetch.fail Fetch.fail Fetch.fail exM3).2.2 =
      [⟨"Fade", [("Input", "3")]⟩] ∧
    (mobile_quick_play sendNever Fetch.fail Fetch.fail Fetch.fail exM3).2.1 =
      DispatchReport.success := by
  decide

/-- C3 (amended): the desktop `quick_play` behaves exactly as the claim
states: an empty or absent preview input fails before any command is sent;
otherwise `Fade` is sent, with exactly one `Cut` fallback on failure;
either success stores the preview input as active and reports success, and
only the failure of both commands reports failure, leaving the active
input unchanged. The mobile `quick_play` instead sends only `Fade`,
ignores its result, and reports success unconditionally. -/
theorem quick_play_spec (send : Cmd → Bool) (s s2 : CState) (p : String)
    (hc : s.connected = true) (hp : s.preview_input = some p) (hne : p ≠ "")
    (hs2 : falsyOpt s2.preview_input = true) :
    (send ⟨"Fade", [("Input", p)]⟩ = true →
      quick_play send s =
        ({ s with active_input := some p }, DispatchReport.success,
         [⟨"Fade", [("Input", p)]⟩])) ∧
    (send ⟨"Fade", [("Input", p)]⟩ = false →
     send ⟨"Cut", [("Input", p)]⟩ = true →
      quick_play send s =
        ({ s with active_input := some p }, DispatchReport.success,
         [⟨"Fade", [("Input", p)]⟩, ⟨"Cut", [("Input", p)]⟩])) ∧
    (send ⟨"Fade", [("Input", p)]⟩ = false →
     send ⟨"Cut", [("Input", p)]⟩ = false →
      quick_play send s =
        (s, DispatchReport.failure,
         [⟨"Fade", [("Input", p)]⟩, ⟨"Cut", [("Input", p)]⟩])) ∧
    quick_play send s2 = (s2, DispatchReport.preconditionFailed, []) := by
  have hfalsy : falsyOpt (some p) = false := by
    simpa [falsyOpt] using hne
  refine ⟨?_, ?_, ?_, ?_⟩
  · intro hf
    simp [quick_play, hc, hp, hfalsy, hf]
  · intro hf hcut
    simp [quick_play, hc, hp, hfalsy, hf, hcut]
  · intro hf hcut
    simp [quick_play, hc, hp, hfalsy, hf, hcut]
  · simp [quick_play, hs2]

/-- A connected desktop state with preview input 3 selected. -/
def exS3 : CState :=
  { connected := true
  , inputs := []
  , active_input := some "1"
  , preview_input := some "3"
  , ftb_active := false
  , overlays := ⟨false, false, false, false⟩ }

/-- A desktop state with no preview selected. -/
def exSNoPreview : CState :=
  { connected := true
  , inputs := []
  , active_input := some "1"
  , preview_input := none
  , ftb_active := false
  , overlays := ⟨false, false, false, false⟩ }

/-- A transport that fails `Fade` and accepts `Cut`. -/
def sendCutOnly : Cmd → Bool := fun c => c.name == "Cut"

/-- Witness for `quick_play_spec`: with preview 3 and a transport failing
`Fade` but accepting `Cut`, the desktop dispatcher reports success and
stores active 3; with no preview selected it fails before sending
anything. -/
theorem quick_play_spec_witness :
    exS3.connected = true ∧ exS3.preview_input = some "3" ∧
    quick_play sendCutOnly exS3 =
      ({ exS3 with active_input := some "3" }, DispatchReport.success,
       [⟨"Fade", [("Input", "3")]⟩, ⟨"Cut", [("Input", "3")]⟩]) ∧
    quick_play sendCutOnly exSNoPreview =
      (exSNoPreview, DispatchReport.preconditionFailed, []) := by
  have h := quick_play_spec sendCutOnly exS3 exSNoPreview "3" rfl rfl
    (by decide) (by decide)
  exact ⟨rfl, rfl, h.2.1 (by decide) (by decide), h.2.2.2⟩

/-- A connected desktop state with empty stored values, about to load
inputs. -/
def exS4 : CState :=
  { connected := true
  , inputs := []
  , active_input := none
  , preview_input := none
  , ftb_active := false
  , overlays := ⟨false, false, false, false⟩ }

/-- C4 counterexample: when the transport returns snapshot A on the first
call and snapshot B on the two following calls, `load_inputs` stores the
input list of snapshot A together with the active input of snapshot B —
values from two different snapshots appear together, and the stored
active number 2 is not the number of any stored input. -/
theorem load_inputs_mixed_snapshots_counterexample :
    (load_inputs (Fetch.ok snapA) (Fetch.ok snapB) (Fetch.ok snapB)
        exS4).inputs = get_inputs (Fetch.ok snapA) ∧
    (load_inputs (Fetch.ok snapA) (Fetch.ok snapB) (Fetch.ok snapB)
        exS4).active_input = get_active_input (Fetch.ok snapB) ∧
    (load_inputs (Fetch.ok snapA) (Fetch.ok snapB) (Fetch.ok snapB)
        exS4).active_input ≠ get_active_input (Fetch.ok snapA) ∧
    get_inputs (Fetch.ok snapB) ≠ get_inputs (Fetch.ok snapA) ∧
    (∀ d ∈ (load_inputs (Fetch.ok snapA) (Fetch.ok snapB) (Fetch.ok snapB)
        exS4).inputs,
      d.number ≠ (load_inputs (Fetch.ok snapA) (Fetch.ok snapB)
        (Fetch.ok snapB) exS4).active_input) := by
  decide

/-- C4 (amended): `load_inputs` derives the input list, the active input
and the preview input from three independently timed fetches, one per
field group; values from different snapshots can therefore appear together
in the resulting state. When the first fetch yields no inputs the call
returns early with the tiles cleared and the stored active and preview
values untouched. -/
theorem load_inputs_three_fetches (f1 f2 f3 g2 g3 : Fetch) (s : CState)
    (hc : s.connected = true) (hne : get_inputs f1 ≠ []) :
    load_inputs f1 f2 f3 s =
      { s with inputs := get_inputs f1
             , active_input := get_active_input f2
             , preview_input := get_preview_input f3 } ∧
    load_inputs Fetch.fail g2 g3 s = { s with inputs := [] } := by
  constructor
  · simp [load_inputs, hc, List.isEmpty_iff, hne]
  · simp [load_inputs, hc, get_inputs, List.isEmpty_iff]

/-- Witness for `load_inputs_three_fetches` at the concrete mixed-snapshot
inputs. -/
theorem load_inputs_three_fetches_witness :
    exS4.connected = true ∧ get_inputs (Fetch.ok snapA) ≠ [] ∧
    load_inputs (Fetch.ok snapA) (Fetch.ok snapB) (Fetch.ok snapB) exS4 =
      { exS4 with
        inputs := get_inputs (Fetch.ok snapA)
      , active_input := get_active_input (Fetch.ok snapB)
      , preview_input := get_preview_input (Fetch.ok snapB) } ∧
    load_inputs Fetch.fail Fetch.fail Fetch.fail exS4 =
      { exS4 with inputs := [] } :=
  ⟨rfl, by decide,
   load_inputs_three_fetches (Fetch.ok snapA) (Fetch.ok snapB)
     (Fetch.ok snapB) Fetch.fail Fetch.fail exS4 rfl (by decide)⟩

/-- A connected desktop state with the fade-to-black effect off. -/
def exS5 : CState :=
  { connected := true
  , inputs := []
  , active_input := some "1"
  , preview_input := some "2"
  , ftb_active := false
  , overlays := ⟨false, false, false, false⟩ }

/-- C5 counterexample: two `fade_to_black` calls in a row from
`ftb_active = false`, the first against a transport that accepts the
command, the second against one that fails it. After the sequence the flag
is `false`, but the second call reports nothing at all — the silent
branch — rather than reporting a failure, and the flip is not reverted
(a revert would have restored `true`). -/
theorem fade_to_black_silent_counterexample :
    (fade_to_black sendNever (fade_to_black sendAlways exS5).1).2 =
      FtbReport.silent ∧
    (fade_to_black sendNever (fade_to_black sendAlways exS5).1).1.ftb_active
      = false := by
  decide

/-- C5 (amended): `fade_to_black` flips the local flag and sends the
command. When the flip turns the effect on and the command fails, the flip
is reverted and the error is reported. When the flip turns the effect off
and the command fails, the flip is neither reverted nor is any error
reported: the local flag stays `false` while the mixer keeps the effect
on. In the two-call scenario the flag ends `false` but the second call
reports no failure. -/
theorem fade_to_black_spec (send : Cmd → Bool) (s : CState)
    (hc : s.connected = true) :
    (s.ftb_active = false → send ⟨"FadeToBlack", []⟩ = true →
      fade_to_black send s = ({ s with ftb_active := true }, .enabled)) ∧
    (s.ftb_active = false → send ⟨"FadeToBlack", []⟩ = false →
      fade_to_black send s =
        ({ s with ftb_active := false }, .errorReported)) ∧
    (s.ftb_active = true → send ⟨"FadeToBlack", []⟩ = true →
      fade_to_black send s = ({ s with ftb_active := false }, .disabled)) ∧
    (s.ftb_active = true → send ⟨"FadeToBlack", []⟩ = false →
      fade_to_black send s = ({ s with ftb_active := false }, .silent)) := by
  refine ⟨?_, ?_, ?_, ?_⟩ <;> intro hftb hsend <;>
    simp [fade_to_black, hc, hftb, hsend]

/-- Witness for `fade_to_black_spec`: turning the effect on with a failing
transport reverts the flip and reports the error; turning it off with a
failing transport stays silent. -/
theorem fade_to_black_spec_witness :
    exS5.connected = true ∧ exS5.ftb_active = false ∧
    fade_to_black sendNever exS5 =
      ({ exS5 with ftb_active := false }, FtbReport.errorReported) ∧
    fade_to_black sendNever { exS5 with ftb_active := true } =
      ({ exS5 with ftb_active := false }, FtbReport.silent) := by
  refine ⟨rfl, rfl, ?_, ?_⟩
  · exact (fade_to_black_spec sendNever exS5 rfl).2.1 rfl rfl
  · exact (fade_to_black_spec sendNever { exS5 with ftb_active := true }
      rfl).2.2.2 rfl rfl

/-- C6: when connected, `remove_overlay` sends the overlay-out command for
every layer 1 to 4 in order regardless of the per-command results — no
failure aborts the remaining layers, since `send_command` swallows every
exception and each boolean result is discarded — and clears all four local
overlay flags and reports success, for every transport whatsoever. -/
theorem remove_overlay_spec (send : Cmd → Bool) (s : CState)
    (hc : s.connected = true) :
    (remove_overlay send s).1 =
      { s with overlays := ⟨false, false, false, false⟩ } ∧
    (remove_overlay send s).2.1 = RemoveReport.success ∧
    (remove_overlay send s).2.2.map Prod.fst =
      [overlayOutCmd 1, overlayOutCmd 2, overlayOutCmd 3, overlayOutCmd 4] := by
  refine ⟨?_, ?_, ?_⟩ <;> simp [remove_overlay, hc, clearOverlay]

/-- A connected desktop state with all four overlay flags raised. -/
def exS6 : CState :=
  { connected := true
  , inputs := []
  , active_input := some "1"
  , preview_input := some "2"
  , ftb_active := false
  , overlays := ⟨true, true, true, true⟩ }

/-- Witness for `remove_overlay_spec` against the transport that fails
exactly layer 3: all four flags end `false`, the call reports success, all
four commands were sent, and the recorded result of the layer-3 command is
indeed `false` while the others succeeded. -/
theorem remove_overlay_spec_witness :
    exS6.connected = true ∧
    ((remove_overlay sendFail3 exS6).1 =
       { exS6 with overlays := ⟨false, false, false, false⟩ } ∧
     (remove_overlay sendFail3 exS6).2.1 = RemoveReport.success ∧
     (remove_overlay sendFail3 exS6).2.2.map Prod.fst =
       [overlayOutCmd 1, overlayOutCmd 2, overlayOutCmd 3, overlayOutCmd 4]) ∧
    (remove_overlay sendFail3 exS6).2.2.map Prod.snd =
      [true, true, false, true] :=
  ⟨rfl, remove_overlay_spec sendFail3 exS6 rfl, by decide⟩

/-- A desktop state left over from an earlier session: disconnected after
a failed reconnect, with the fade-to-black flag and the layer-3 overlay
flag still raised. -/
def exS7 : CState :=
  { connected := false
  , inputs := []
  , active_input := none
  , preview_input := none
  , ftb_active := true
  , overlays := ⟨false, false, true, false⟩ }

/-- C7 counterexample: a successful `connect_to_vmix` does not seed the
overlay and fade-to-black state to defaults — the raised layer-3 flag and
the raised fade-to-black flag survive the connect — and the failure report
does not distinguish a timeout from an unreachable address: both causes
produce the identical result. -/
theorem connect_to_vmix_counterexample :
    (connect_to_vmix "192.168.1.50" "8088" (Fetch.ok snapA)
        Fetch.fail Fetch.fail Fetch.fail exS7).1.overlays.o3 = true ∧
    (connect_to_vmix "192.168.1.50" "8088" (Fetch.ok snapA)
        Fetch.fail Fetch.fail Fetch.fail exS7).1.ftb_active = true ∧
    connect_to_vmix "192.168.1.50" "8088" (fetchOfCause SnapCause.noResponse)
        Fetch.fail Fetch.fail Fetch.fail exS7 =
      connect_to_vmix "192.168.1.50" "8088" (fetchOfCause SnapCause.badAddress)
        Fetch.fail Fetch.fail Fetch.fail exS7 := by
  decide

/-- C7 (amended): `connect_to_vmix` rejects an empty ip before any network
call; otherwise it attempts one `get_xml_data` whose truthiness alone
decides the outcome. On success it becomes connected and reloads the mixer
state through `load_inputs`, leaving the overlay and fade-to-black flags
exactly as they were — only the construction-time state seeds them to all
`false`. On failure it stays disconnected and reports one generic failure
message without throwing; a timeout and an unreachable address are
collapsed to the same `None` before the report is chosen, so they are not
distinguished. -/
theorem connect_to_vmix_spec (ip port : String) (root : XElem)
    (f1 f2 f3 : Fetch) (s : CState) (hip : ip ≠ "") :
    (connect_to_vmix ip port (Fetch.ok root) f1 f2 f3 s).1.connected
      = true ∧
    (connect_to_vmix ip port (Fetch.ok root) f1 f2 f3 s).1.ftb_active
      = s.ftb_active ∧
    (connect_to_vmix ip port (Fetch.ok root) f1 f2 f3 s).1.overlays
      = s.overlays ∧
    (connect_to_vmix ip port (Fetch.ok root) f1 f2 f3 s).2
      = ConnectReport.connectedOk ∧
    connect_to_vmix ip port Fetch.fail f1 f2 f3 s =
      ({ s with connected := false }, ConnectReport.failed) ∧
    fetchOfCause SnapCause.noResponse = fetchOfCause SnapCause.badAddress ∧
    initCState.ftb_active = false ∧
    initCState.overlays = ⟨false, false, false, false⟩ ∧
    connect_to_vmix "" port (Fetch.ok root) f1 f2 f3 s = (s, .emptyIp) := by
  have hok : (load_inputs f1 f2 f3 { s with connected := true }).connected
        = true ∧
      (load_inputs f1 f2 f3 { s with connected := true }).ftb_active
        = s.ftb_active ∧
      (load_inputs f1 f2 f3 { s with connected := true }).overlays
        = s.overlays := by
    simp only [load_inputs]
    split
    · split
      · exact ⟨rfl, rfl, rfl⟩
      · exact ⟨rfl, rfl, rfl⟩
    · exact ⟨rfl, rfl, rfl⟩
  refine ⟨?_, ?_, ?_, ?_, ?_, rfl, rfl, rfl, rfl⟩ <;>
    simp only [connect_to_vmix, if_neg hip]
  · exact hok.1
  · exact hok.2.1
  · exact hok.2.2
  · rfl
  · rfl

/-- Witness for `connect_to_vmix_spec` at the concrete leftover state. -/
theorem connect_to_vmix_spec_witness :
    "192.168.1.50" ≠ "" ∧
    ((connect_to_vmix "192.168.1.50" "8088" (Fetch.ok snapA)
        Fetch.fail Fetch.fail Fetch.fail exS7).1.connected = true ∧
     (connect_to_vmix "192.168.1.50" "8088" (Fetch.ok snapA)
        Fetch.fail Fetch.fail Fetch.fail exS7).1.ftb_active
       = exS7.ftb_active ∧
     (connect_to_vmix "192.168.1.50" "8088" (Fetch.ok snapA)
        Fetch.fail Fetch.fail Fetch.fail exS7).1.overlays = exS7.overlays ∧
     (connect_to_vmix "192.168.1.50" "8088" (Fetch.ok snapA)
        Fetch.fail Fetch.fail Fetch.fail exS7).2
       = ConnectReport.connectedOk ∧
     connect_to_vmix "192.168.1.50" "8088" Fetch.fail
        Fetch.fail Fetch.fail Fetch.fail exS7 =
       ({ exS7 with connected := false }, ConnectReport.failed) ∧
     fetchOfCause SnapCause.noResponse = fetchOfCause SnapCause.badAddress ∧
     initCState.ftb_active = false ∧
     initCState.overlays = ⟨false, false, false, false⟩ ∧
     connect_to_vmix "" "8088" (Fetch.ok snapA)
        Fetch.fail Fetch.fail Fetch.fail exS7 = (exS7, .emptyIp)) :=
  ⟨by decide,
   connect_to_vmix_spec "192.168.1.50" "8088" snapA
     Fetch.fail Fetch.fail Fetch.fail exS7 (by decide)⟩
